import Mathlib

/-!
Shallow embedding of the AVR spindle motor-direction controller
(`src/main.c` of djmdjm/avr-motor-controller).

The controller state is modelled as the C enum value (a `Nat`), the
1 kHz timer subsystem as an explicit record mutated by an interrupt
step function, and the control loop body as pure functions over an
explicit configuration.  All machine integers are `Nat` with explicit
`% 2^w` reductions where the C type can wrap (`uint32_t` tick counter,
`uint16_t` oneshot countdown).
-/

namespace MotorController

/- Timing configuration constants (milliseconds), from main.c lines 29-37. -/

def SPINDLE_START_TIME_MS : Nat := 500
def SPINDLE_COAST_TIME_MS : Nat := 1000
def COLD_START_TIME_MS : Nat := 2000
def ERROR_RECOVER_TIME_MS : Nat := 5000
def STATUS_TIME_UNIT_MS : Nat := 100
def STATUS_TIME_DOT : Nat := 1 * STATUS_TIME_UNIT_MS
def STATUS_TIME_DASH : Nat := 3 * STATUS_TIME_UNIT_MS
def STATUS_TIME_INTERVAL : Nat := 1 * STATUS_TIME_UNIT_MS
def STATUS_TIME_GAP : Nat := 7 * STATUS_TIME_UNIT_MS

/- The `enum state` values from main.c lines 39-51.  The C state variable
is an integer, so the model keeps it as a `Nat`; `S_MAX` and larger values
are representable and handled by the `default` branches, as in the C. -/

def S_ERROR : Nat := 0
def S_COLD_START : Nat := 1
def S_ESTOPPED : Nat := 2
def S_READY : Nat := 3
def S_FWD_START : Nat := 4
def S_FWD : Nat := 5
def S_FWD_SPINDOWN : Nat := 6
def S_REV_START : Nat := 7
def S_REV : Nat := 8
def S_REV_SPINDOWN : Nat := 9
def S_MAX : Nat := 10

/-- The interrupt-owned timer variables: `timer_1k` (uint32 tick count),
`timer_1k_oneshot` (uint16 countdown) and `timer_1k_done` (latched
expiry flag), main.c lines 57-59. -/
structure TimerState where
  timer_1k : Nat
  timer_1k_oneshot : Nat
  timer_1k_done : Bool
  deriving DecidableEq, Repr

/-- One firing of `ISR(TIM0_COMPA_vect)` (main.c lines 61-68): increment
the tick count (uint32, wraps) and, if a countdown is armed, decrement
it, latching the done flag when it reaches zero. -/
def isr (t : TimerState) : TimerState :=
  let tick := (t.timer_1k + 1) % 4294967296
  if t.timer_1k_oneshot ≠ 0 then
    if t.timer_1k_oneshot - 1 = 0 then
      { timer_1k := tick, timer_1k_oneshot := 0, timer_1k_done := true }
    else
      { timer_1k := tick, timer_1k_oneshot := t.timer_1k_oneshot - 1,
        timer_1k_done := t.timer_1k_done }
  else
    { t with timer_1k := tick }

/-- Apply `n` consecutive timer interrupts (earliest applied first). -/
def isrN : Nat → TimerState → TimerState
  | 0, t => t
  | n + 1, t => isrN n (isr t)

/-- Model of `timer_oneshot(ms)` (main.c lines 96-103): clear the done flag and
set the countdown, clobbering any running timer.  The argument is a
`uint16_t`, hence the `% 65536`. -/
def timer_oneshot (ms : Nat) (t : TimerState) : TimerState :=
  { t with timer_1k_done := false, timer_1k_oneshot := ms % 65536 }

/-- Model of `timer_oneshot_done()` (main.c lines 106-115). -/
def timer_oneshot_done (t : TimerState) : Bool := t.timer_1k_done

/-- Model of `timer_oneshot_cancel()` (main.c lines 118-122). -/
def timer_oneshot_cancel (t : TimerState) : TimerState := timer_oneshot 0 t

/-- Model of `timer_1k_val()` (main.c lines 84-93). -/
def timer_1k_val (t : TimerState) : Nat := t.timer_1k

/-- The state machine's mutable data: the `state` global plus the timer. -/
structure Machine where
  state : Nat
  timer : TimerState
  deriving DecidableEq, Repr

/- State advance functions, main.c lines 177-304.  Each checks the
current state against its whitelisted predecessor set and falls back to
`advance_error` otherwise. -/

/-- Model of `advance_error()` (main.c lines 177-182): arm the error-recovery
holdoff and enter `S_ERROR`. -/
def advance_error (m : Machine) : Machine :=
  { state := S_ERROR, timer := timer_oneshot ERROR_RECOVER_TIME_MS m.timer }

/-- Model of `advance_estopped()` (main.c lines 184-200). -/
def advance_estopped (m : Machine) : Machine :=
  if m.state = S_ERROR ∨ m.state = S_COLD_START ∨ m.state = S_READY ∨
      m.state = S_FWD_SPINDOWN ∨ m.state = S_REV_SPINDOWN then
    { state := S_ESTOPPED, timer := timer_oneshot_cancel m.timer }
  else
    advance_error m

/-- Model of `advance_ready()` (main.c lines 202-216). -/
def advance_ready (m : Machine) : Machine :=
  if m.state = S_ESTOPPED ∨ m.state = S_FWD_SPINDOWN ∨ m.state = S_REV_SPINDOWN then
    { state := S_READY, timer := timer_oneshot_cancel m.timer }
  else
    advance_error m

/-- Model of `advance_fwd_start()` (main.c lines 218-231). -/
def advance_fwd_start (m : Machine) : Machine :=
  if m.state = S_READY ∨ m.state = S_FWD_SPINDOWN then
    { state := S_FWD_START, timer := timer_oneshot SPINDLE_START_TIME_MS m.timer }
  else
    advance_error m

/-- Model of `advance_fwd()` (main.c lines 233-245). -/
def advance_fwd (m : Machine) : Machine :=
  if m.state = S_FWD_START then
    { state := S_FWD, timer := timer_oneshot_cancel m.timer }
  else
    advance_error m

/-- Model of `advance_fwd_spindown()` (main.c lines 247-260). -/
def advance_fwd_spindown (m : Machine) : Machine :=
  if m.state = S_FWD_START ∨ m.state = S_FWD then
    { state := S_FWD_SPINDOWN, timer := timer_oneshot SPINDLE_COAST_TIME_MS m.timer }
  else
    advance_error m

/-- Model of `advance_rev_start()` (main.c lines 262-275). -/
def advance_rev_start (m : Machine) : Machine :=
  if m.state = S_READY ∨ m.state = S_REV_SPINDOWN then
    { state := S_REV_START, timer := timer_oneshot SPINDLE_START_TIME_MS m.timer }
  else
    advance_error m

/-- Model of `advance_rev()` (main.c lines 277-289). -/
def advance_rev (m : Machine) : Machine :=
  if m.state = S_REV_START then
    { state := S_REV, timer := timer_oneshot_cancel m.timer }
  else
    advance_error m

/-- Model of `advance_rev_spindown()` (main.c lines 291-304). -/
def advance_rev_spindown (m : Machine) : Machine :=
  if m.state = S_REV_START ∨ m.state = S_REV then
    { state := S_REV_SPINDOWN, timer := timer_oneshot SPINDLE_COAST_TIME_MS m.timer }
  else
    advance_error m

/-- The four logical (active-high) input signals sampled at the top of
each loop iteration (main.c lines 330-333). -/
structure Inputs where
  in_light : Bool
  in_fwd : Bool
  in_rev : Bool
  in_estopok : Bool
  deriving DecidableEq, Repr

/-- The "Update state based on inputs" switch of the control loop
(main.c lines 336-421), as a function of the sampled inputs and the
current machine state. -/
def evalStep (ins : Inputs) (m : Machine) : Machine :=
  if m.state = S_ERROR then
    if ins.in_fwd && ins.in_rev then advance_error m
    else if timer_oneshot_done m.timer then advance_estopped m
    else m
  else if m.state = S_COLD_START then
    if timer_oneshot_done m.timer then advance_estopped m
    else m
  else if m.state = S_ESTOPPED then
    if ins.in_fwd && ins.in_rev then advance_error m
    else if ins.in_estopok then advance_ready m
    else m
  else if m.state = S_READY then
    if ins.in_fwd && ins.in_rev then advance_error m
    else if !ins.in_estopok then advance_estopped m
    else if ins.in_fwd then advance_fwd_start m
    else if ins.in_rev then advance_rev_start m
    else m
  else if m.state = S_FWD_START then
    if ins.in_rev then advance_error m
    else if !ins.in_estopok || !ins.in_fwd then advance_fwd_spindown m
    else if timer_oneshot_done m.timer then advance_fwd m
    else m
  else if m.state = S_FWD then
    if ins.in_rev then advance_error m
    else if !ins.in_estopok || !ins.in_fwd then advance_fwd_spindown m
    else m
  else if m.state = S_FWD_SPINDOWN then
    if ins.in_rev then advance_error m
    else if ins.in_estopok && ins.in_fwd then advance_fwd_start m
    else if timer_oneshot_done m.timer then
      if !ins.in_estopok then advance_estopped m else advance_ready m
    else m
  else if m.state = S_REV_START then
    if ins.in_fwd then advance_error m
    else if !ins.in_estopok || !ins.in_rev then advance_rev_spindown m
    else if timer_oneshot_done m.timer then advance_rev m
    else m
  else if m.state = S_REV then
    if ins.in_fwd then advance_error m
    else if !ins.in_estopok || !ins.in_rev then advance_rev_spindown m
    else m
  else if m.state = S_REV_SPINDOWN then
    if ins.in_fwd then advance_error m
    else if ins.in_estopok && ins.in_rev then advance_rev_start m
    else if timer_oneshot_done m.timer then
      if !ins.in_estopok then advance_estopped m else advance_ready m
    else m
  else
    advance_error m

/-- The five output signals (PORTA bits 0-4, main.c lines 126-154). -/
structure Outputs where
  light : Bool
  inhibit : Bool
  start : Bool
  direction : Bool
  status : Bool
  deriving DecidableEq, Repr

def out_light (b : Bool) (o : Outputs) : Outputs := { o with light := b }

def out_inhibit (b : Bool) (o : Outputs) : Outputs := { o with inhibit := b }

def out_start (b : Bool) (o : Outputs) : Outputs := { o with start := b }

def out_direction (b : Bool) (o : Outputs) : Outputs := { o with direction := b }

def out_status (b : Bool) (o : Outputs) : Outputs := { o with status := b }

/-- The "act on current state" switch of the control loop (main.c lines
453-516).  Note the `default` branch (which handles `S_ERROR` and any
out-of-range state) does not call `out_direction`. -/
def outputStage (ins : Inputs) (s : Nat) (o : Outputs) : Outputs :=
  if s = S_COLD_START then
    out_direction false (out_start false (out_inhibit false (out_light false o)))
  else if s = S_ESTOPPED ∨ s = S_READY then
    out_direction false (out_start false (out_inhibit false (out_light ins.in_light o)))
  else if s = S_FWD_START then
    out_direction false (out_start true (out_inhibit true (out_light ins.in_light o)))
  else if s = S_FWD then
    out_direction false (out_start false (out_inhibit true (out_light ins.in_light o)))
  else if s = S_FWD_SPINDOWN then
    out_direction false (out_start false (out_inhibit false (out_light ins.in_light o)))
  else if s = S_REV_START then
    out_direction true (out_start true (out_inhibit true (out_light ins.in_light o)))
  else if s = S_REV then
    out_direction true (out_start false (out_inhibit true (out_light ins.in_light o)))
  else if s = S_REV_SPINDOWN then
    out_direction true (out_start false (out_inhibit false (out_light ins.in_light o)))
  else
    out_start false (out_inhibit false (out_light false o))

/-- The `stateblink[]` table (main.c lines 161-173): upper nibble is the
pattern length, lower nibble the dot/dash bitmap (set bit = dash),
least-significant bit first. -/
def stateblink : List Nat :=
  [(4 <<< 4) ||| 0x9,
   (3 <<< 4) ||| 0x0,
   (1 <<< 4) ||| 0x1,
   (3 <<< 4) ||| 0x2,
   (2 <<< 4) ||| 0x2,
   (4 <<< 4) ||| 0x1,
   (4 <<< 4) ||| 0x3,
   (2 <<< 4) ||| 0x0,
   (4 <<< 4) ||| 0xe,
   (3 <<< 4) ||| 0x5,
   (3 <<< 4) ||| 0x4]

/-- The symbol intervals appended by the `for` loop of main.c lines
433-438 after `i` iterations: for each symbol a lit interval (dash or
dot) followed by an inter-symbol interval. -/
def buildSyms (b : Nat) : Nat → List Nat
  | 0 => []
  | i + 1 =>
    buildSyms b i ++
      [if b &&& (1 <<< i) ≠ 0 then STATUS_TIME_DASH else STATUS_TIME_DOT,
       STATUS_TIME_INTERVAL]

/-- The full rebuilt `status_times[]` contents for pattern byte `b`
(main.c lines 425-438): an inter-letter gap, then the symbol
intervals. -/
def buildTimes (b : Nat) : List Nat :=
  STATUS_TIME_GAP :: buildSyms b (b >>> 4)

/-- The status-encoder variables of `main` (main.c lines 310-312):
`status_times` is modelled by the list of entries written so far. -/
structure StatusState where
  status_times : List Nat
  status_len : Nat
  status_phase : Nat
  status_timeout : Nat
  deriving DecidableEq, Repr

/-- The "prepare/update Morse code status pattern" block (main.c lines
424-447), as a function of the previous state `ostate`, the updated
state `s`, the current tick value `now` and the previous encoder state.
`status_timeout` is a `uint32_t`, hence the `% 2^32` on the sums. -/
def statusUpdate (ostate s : Nat) (now : Nat) (ss : StatusState) : StatusState :=
  if ss.status_len = 0 ∨ ostate ≠ s then
    { status_times := buildTimes (stateblink.getD s 0),
      status_len := (buildTimes (stateblink.getD s 0)).length,
      status_phase := 0,
      status_timeout := (now + (buildTimes (stateblink.getD s 0)).getD 0 0) % 4294967296 }
  else if now = ss.status_timeout then
    { ss with
      status_phase := (ss.status_phase + 1) % ss.status_len,
      status_timeout := (now + ss.status_times.getD
        ((ss.status_phase + 1) % ss.status_len) 0) % 4294967296 }
  else
    ss

/-- The whole mutable configuration of the program. -/
structure Config where
  machine : Machine
  status : StatusState
  outputs : Outputs
  deriving DecidableEq, Repr

/-- One full body of the `for (;;)` control loop (main.c lines 328-517)
at a given input sample: state update, status-pattern update, status
output, then the state-indexed output stage. -/
def loopIter (ins : Inputs) (c : Config) : Config :=
  let m := evalStep ins c.machine
  let ss := statusUpdate c.machine.state m.state (timer_1k_val m.timer) c.status
  let o := outputStage ins m.state (out_status (ss.status_phase &&& 1 == 1) c.outputs)
  { machine := m, status := ss, outputs := o }

/-- The configuration at the first loop entry (main.c lines 310-327):
state `S_COLD_START`, cold-start holdoff armed, no status sequence yet,
all output bits low. -/
def initConfig : Config :=
  { machine := { state := S_COLD_START,
                 timer := timer_oneshot COLD_START_TIME_MS
                   { timer_1k := 0, timer_1k_oneshot := 0, timer_1k_done := false } },
    status := { status_times := [], status_len := 0, status_phase := 0,
                status_timeout := 0 },
    outputs := { light := false, inhibit := false, start := false,
                 direction := false, status := false } }

/-- Reachability: configurations produced from the start configuration
by any interleaving of timer interrupts and control-loop iterations with
arbitrary inputs. -/
inductive Reachable : Config → Prop where
  | init : Reachable initConfig
  | tick {c : Config} : Reachable c →
      Reachable { c with machine := { state := c.machine.state, timer := isr c.machine.timer } }
  | loop {c : Config} : Reachable c → ∀ ins : Inputs, Reachable (loopIter ins c)

/-- Status-encoder bookkeeping invariant: before the first rebuild the
phase is zero and no entries are written; afterwards the written entries
match `status_len` and the phase indexes into them. -/
def StatusInv (ss : StatusState) : Prop :=
  (ss.status_len = 0 → ss.status_phase = 0 ∧ ss.status_times = []) ∧
  (ss.status_len ≠ 0 → ss.status_times.length = ss.status_len ∧
    ss.status_phase < ss.status_len ∧ ss.status_len ≤ 9)

/-- Whole-configuration invariant: the committed state is one of the ten
enumerators and the status encoder is in bounds. -/
def Inv (c : Config) : Prop :=
  c.machine.state < 10 ∧ StatusInv c.status

/- Helper lemmas about the timer subsystem. -/

theorem isr_timer_1k (t : TimerState) :
    (isr t).timer_1k = (t.timer_1k + 1) % 4294967296 := by
  unfold isr
  split_ifs <;> rfl

theorem isrN_succ (n : Nat) (t : TimerState) : isrN (n + 1) t = isrN n (isr t) := rfl

theorem isrN_add (a b : Nat) (t : TimerState) : isrN (a + b) t = isrN b (isrN a t) := by
  induction a generalizing t with
  | zero => simp [isrN]
  | succ a ih =>
    rw [show a + 1 + b = (a + b) + 1 by omega, isrN_succ, isrN_succ, ih]

theorem isrN_oneshot_zero (n : Nat) (t : TimerState) (h : t.timer_1k_oneshot = 0) :
    (isrN n t).timer_1k_oneshot = 0 ∧ (isrN n t).timer_1k_done = t.timer_1k_done := by
  induction n generalizing t with
  | zero => exact ⟨h, rfl⟩
  | succ n ih =>
    rw [isrN_succ]
    have hisr : isr t = ⟨(t.timer_1k + 1) % 4294967296, t.timer_1k_oneshot, t.timer_1k_done⟩ := by
      unfold isr
      rw [if_neg (by simp [h])]
    rw [hisr]
    exact ih _ h

theorem isrN_countdown (k : Nat) (t : TimerState) (h : k < t.timer_1k_oneshot) :
    (isrN k t).timer_1k_oneshot = t.timer_1k_oneshot - k ∧
    (isrN k t).timer_1k_done = t.timer_1k_done := by
  induction k generalizing t with
  | zero => exact ⟨rfl, rfl⟩
  | succ k ih =>
    rw [isrN_succ]
    have hne : t.timer_1k_oneshot ≠ 0 := by omega
    have hne1 : t.timer_1k_oneshot - 1 ≠ 0 := by omega
    have hisr : isr t =
        ⟨(t.timer_1k + 1) % 4294967296, t.timer_1k_oneshot - 1, t.timer_1k_done⟩ := by
      unfold isr
      rw [if_pos hne, if_neg hne1]
    rw [hisr]
    have h' := ih ⟨(t.timer_1k + 1) % 4294967296, t.timer_1k_oneshot - 1, t.timer_1k_done⟩
        (by simp only; omega)
    simp only at h'
    refine ⟨?_, h'.2⟩
    rw [h'.1]
    omega

theorem isrN_expire (N : Nat) (t : TimerState) (ht : t.timer_1k_oneshot = N) (hN : 0 < N) :
    (isrN N t).timer_1k_oneshot = 0 ∧ (isrN N t).timer_1k_done = true := by
  induction N generalizing t with
  | zero => omega
  | succ N ih =>
    rw [isrN_succ]
    rcases Nat.eq_zero_or_pos N with hz | hpos
    · subst hz
      have hisr : isr t = ⟨(t.timer_1k + 1) % 4294967296, 0, true⟩ := by
        unfold isr
        rw [if_pos (by omega), if_pos (by omega)]
      rw [hisr]
      exact ⟨rfl, rfl⟩
    · have hisr : isr t = ⟨(t.timer_1k + 1) % 4294967296, N, t.timer_1k_done⟩ := by
        unfold isr
        rw [if_pos (by omega), if_neg (by omega)]
        simp [ht]
      rw [hisr]
      exact ih _ rfl hpos

theorem isrN_done_after (k : Nat) (t : TimerState) (h1 : t.timer_1k_oneshot ≠ 0)
    (h2 : t.timer_1k_oneshot ≤ k) : (isrN k t).timer_1k_done = true := by
  obtain ⟨j, hj⟩ : ∃ j, k = t.timer_1k_oneshot + j := ⟨k - t.timer_1k_oneshot, by omega⟩
  subst hj
  rw [isrN_add]
  obtain ⟨ho, hd⟩ := isrN_expire t.timer_1k_oneshot t rfl (by omega)
  obtain ⟨_, hd2⟩ := isrN_oneshot_zero j _ ho
  rw [hd2, hd]

theorem isrN_timer_1k (d : Nat) (t : TimerState) (h : t.timer_1k < 4294967296) :
    (isrN d t).timer_1k = (t.timer_1k + d) % 4294967296 := by
  induction d generalizing t with
  | zero => simpa [isrN] using (Nat.mod_eq_of_lt h).symm
  | succ d ih =>
    rw [isrN_succ]
    have h1 : (isr t).timer_1k = (t.timer_1k + 1) % 4294967296 := isr_timer_1k t
    have h2 : (isr t).timer_1k < 4294967296 := by
      rw [h1]; exact Nat.mod_lt _ (by omega)
    rw [ih _ h2, h1, Nat.mod_add_mod]
    congr 1
    omega

/- Helper lemmas about the state advance functions: every committed
state is one of the ten enumerator values. -/

theorem advance_error_state (m : Machine) : (advance_error m).state = 0 := rfl

theorem advance_estopped_state (m : Machine) :
    (advance_estopped m).state = 2 ∨ (advance_estopped m).state = 0 := by
  unfold advance_estopped
  split_ifs <;> simp [advance_error, S_ESTOPPED, S_ERROR]

theorem advance_ready_state (m : Machine) :
    (advance_ready m).state = 3 ∨ (advance_ready m).state = 0 := by
  unfold advance_ready
  split_ifs <;> simp [advance_error, S_READY, S_ERROR]

theorem advance_fwd_start_state (m : Machine) :
    (advance_fwd_start m).state = 4 ∨ (advance_fwd_start m).state = 0 := by
  unfold advance_fwd_start
  split_ifs <;> simp [advance_error, S_FWD_START, S_ERROR]

theorem advance_fwd_state (m : Machine) :
    (advance_fwd m).state = 5 ∨ (advance_fwd m).state = 0 := by
  unfold advance_fwd
  split_ifs <;> simp [advance_error, S_FWD, S_ERROR]

theorem advance_fwd_spindown_state (m : Machine) :
    (advance_fwd_spindown m).state = 6 ∨ (advance_fwd_spindown m).state = 0 := by
  unfold advance_fwd_spindown
  split_ifs <;> simp [advance_error, S_FWD_SPINDOWN, S_ERROR]

theorem advance_rev_start_state (m : Machine) :
    (advance_rev_start m).state = 7 ∨ (advance_rev_start m).state = 0 := by
  unfold advance_rev_start
  split_ifs <;> simp [advance_error, S_REV_START, S_ERROR]

theorem advance_rev_state (m : Machine) :
    (advance_rev m).state = 8 ∨ (advance_rev m).state = 0 := by
  unfold advance_rev
  split_ifs <;> simp [advance_error, S_REV, S_ERROR]

theorem advance_rev_spindown_state (m : Machine) :
    (advance_rev_spindown m).state = 9 ∨ (advance_rev_spindown m).state = 0 := by
  unfold advance_rev_spindown
  split_ifs <;> simp [advance_error, S_REV_SPINDOWN, S_ERROR]

theorem evalStep_state_lt (ins : Inputs) (m : Machine) (h : m.state < 10) :
    (evalStep ins m).state < 10 := by
  rcases m with ⟨s, t⟩
  rcases ins with ⟨l, fwd, rev, eok⟩
  rcases t with ⟨a, b, d⟩
  simp only [Machine.state] at h
  interval_cases s <;> cases fwd <;> cases rev <;> cases eok <;> cases d <;>
    simp [evalStep, advance_error, advance_estopped, advance_ready, advance_fwd_start,
      advance_fwd, advance_fwd_spindown, advance_rev_start, advance_rev, advance_rev_spindown,
      timer_oneshot_done, timer_oneshot, timer_oneshot_cancel,
      S_ERROR, S_COLD_START, S_ESTOPPED, S_READY, S_FWD_START, S_FWD, S_FWD_SPINDOWN,
      S_REV_START, S_REV, S_REV_SPINDOWN]

/-- Claim C5: oneshot-timer semantics.  Arming with 0 clears the expired
flag and the flag never becomes true under further ticks; arming with
`0 < N < 2^16` clears the flag, the flag is false strictly before `N`
tick interrupts, becomes true at the `N`-th tick and stays true for all
later ticks; and an `arm` call unconditionally replaces any pending
countdown, whatever its value or expiry state. -/
theorem oneshot_semantics (t : TimerState) (N : Nat) (h1 : 0 < N) (h2 : N < 65536) :
    (∀ n : Nat, (isrN n (timer_oneshot 0 t)).timer_1k_done = false) ∧
    (timer_oneshot N t).timer_1k_oneshot = N ∧
    (timer_oneshot N t).timer_1k_done = false ∧
    (∀ k : Nat, k < N → (isrN k (timer_oneshot N t)).timer_1k_done = false) ∧
    (∀ k : Nat, N ≤ k → (isrN k (timer_oneshot N t)).timer_1k_done = true) ∧
    (∀ (M : Nat) (u : TimerState),
      timer_oneshot M u = ⟨u.timer_1k, M % 65536, false⟩) := by
  have hmod : N % 65536 = N := Nat.mod_eq_of_lt h2
  refine ⟨?_, ?_, rfl, ?_, ?_, ?_⟩
  · intro n
    exact (isrN_oneshot_zero n (timer_oneshot 0 t) rfl).2
  · simp [timer_oneshot, hmod]
  · intro k hk
    have harm : (timer_oneshot N t).timer_1k_oneshot = N := by simp [timer_oneshot, hmod]
    have := isrN_countdown k (timer_oneshot N t) (by rw [harm]; exact hk)
    rw [this.2]
    rfl
  · intro k hk
    have harm : (timer_oneshot N t).timer_1k_oneshot = N := by simp [timer_oneshot, hmod]
    exact isrN_done_after k (timer_oneshot N t) (by rw [harm]; omega) (by rw [harm]; exact hk)
  · intro M u
    rfl

/-- Witness for C5 at concrete inputs: after arming 0 the flag stays
false for 7 ticks; after arming 3 the flag is false after 2 ticks and
true after 3 ticks. -/
theorem oneshot_semantics_witness :
    (isrN 7 (timer_oneshot 0 ⟨0, 0, true⟩)).timer_1k_done = false ∧
    (isrN 2 (timer_oneshot 3 ⟨0, 0, true⟩)).timer_1k_done = false ∧
    (isrN 3 (timer_oneshot 3 ⟨0, 0, true⟩)).timer_1k_done = true :=
  ⟨(oneshot_semantics ⟨0, 0, true⟩ 3 (by decide) (by decide)).1 7,
   (oneshot_semantics ⟨0, 0, true⟩ 3 (by decide) (by decide)).2.2.2.1 2 (by decide),
   (oneshot_semantics ⟨0, 0, true⟩ 3 (by decide) (by decide)).2.2.2.2.1 3 (by decide)⟩

/-- Claim C1 counterexample: in state `S_COLD_START` with Forward and
Reverse both asserted and the cold-start holdoff still running, one
evaluation step leaves the state at `S_COLD_START`, not `S_ERROR`: the
cold-start branch never inspects the direction inputs. -/
theorem interlock_coldstart_cex :
    (evalStep ⟨false, true, true, false⟩ ⟨S_COLD_START, ⟨0, 250, false⟩⟩).state =
      S_COLD_START ∧
    (evalStep ⟨false, true, true, false⟩ ⟨S_COLD_START, ⟨0, 250, false⟩⟩).state ≠ S_ERROR ∧
    (evalStep ⟨false, true, true, false⟩ ⟨S_COLD_START, ⟨0, 0, true⟩⟩).state = S_ESTOPPED := by
  decide

/-- Claim C1 (amended): if Forward and Reverse are both asserted during a
single control-loop evaluation step, then from any of the ten states
EXCEPT `S_COLD_START` the state after that step is `S_ERROR`; from
`S_COLD_START` the inputs are ignored and the step yields `S_COLD_START`
or `S_ESTOPPED` depending only on the cold-start holdoff. -/
theorem interlock_routes_to_error (ins : Inputs) (s : Nat) (t : TimerState)
    (hf : ins.in_fwd = true) (hr : ins.in_rev = true) (hs : s < 10) (hcs : s ≠ S_COLD_START) :
    (evalStep ins ⟨s, t⟩).state = S_ERROR := by
  rcases ins with ⟨l, fwd, rev, eok⟩
  simp only [Inputs.in_fwd] at hf
  simp only [Inputs.in_rev] at hr
  subst hf hr
  simp only [S_COLD_START] at hcs
  rcases t with ⟨a, b, d⟩
  interval_cases s <;>
    first
      | (exact absurd rfl hcs)
      | (cases eok <;> cases d <;>
          simp [evalStep, advance_error, advance_estopped, advance_ready, advance_fwd_start,
            advance_fwd, advance_fwd_spindown, advance_rev_start, advance_rev,
            advance_rev_spindown, timer_oneshot_done, timer_oneshot, timer_oneshot_cancel,
            S_ERROR, S_COLD_START, S_ESTOPPED, S_READY, S_FWD_START, S_FWD, S_FWD_SPINDOWN,
            S_REV_START, S_REV, S_REV_SPINDOWN])

/-- Witness for C1 (amended) at a concrete input: from `S_REV` with both
direction inputs asserted, one step commits `S_ERROR`. -/
theorem interlock_routes_to_error_witness :
    (evalStep ⟨false, true, true, true⟩ ⟨S_REV, ⟨5, 0, false⟩⟩).state = S_ERROR :=
  interlock_routes_to_error ⟨false, true, true, true⟩ S_REV ⟨5, 0, false⟩ rfl rfl
    (by decide) (by decide)

/-- Claim C4: from `S_ERROR`, if Forward and Reverse are both asserted
the step re-arms the full error-recovery holdoff and stays in `S_ERROR`;
if the hazard is absent, the step leaves `S_ERROR` only when the holdoff
has expired, and then only to `S_ESTOPPED` (cancelling the timer);
otherwise the configuration is unchanged. -/
theorem error_recovery (ins : Inputs) (t : TimerState) :
    (ins.in_fwd = true → ins.in_rev = true →
      evalStep ins ⟨S_ERROR, t⟩ = ⟨S_ERROR, timer_oneshot ERROR_RECOVER_TIME_MS t⟩) ∧
    (¬(ins.in_fwd = true ∧ ins.in_rev = true) →
      (timer_oneshot_done t = true →
        evalStep ins ⟨S_ERROR, t⟩ = ⟨S_ESTOPPED, timer_oneshot_cancel t⟩) ∧
      (timer_oneshot_done t = false → evalStep ins ⟨S_ERROR, t⟩ = ⟨S_ERROR, t⟩)) := by
  rcases ins with ⟨l, fwd, rev, eok⟩
  rcases t with ⟨a, b, d⟩
  cases fwd <;> cases rev <;> cases d <;>
    simp [evalStep, advance_error, advance_estopped, timer_oneshot_done, timer_oneshot,
      timer_oneshot_cancel, S_ERROR, S_COLD_START, S_ESTOPPED, S_READY, S_FWD_START, S_FWD,
      S_FWD_SPINDOWN, S_REV_START, S_REV, S_REV_SPINDOWN, ERROR_RECOVER_TIME_MS]

/-- Witness for C4 at concrete inputs: with the hazard present the
holdoff is re-armed in full and the state stays `S_ERROR`; with the
hazard absent and the holdoff expired the state becomes `S_ESTOPPED`. -/
theorem error_recovery_witness :
    evalStep ⟨false, true, true, false⟩ ⟨S_ERROR, ⟨9, 42, true⟩⟩ =
      ⟨S_ERROR, timer_oneshot ERROR_RECOVER_TIME_MS ⟨9, 42, true⟩⟩ ∧
    evalStep ⟨false, false, false, false⟩ ⟨S_ERROR, ⟨9, 0, true⟩⟩ =
      ⟨S_ESTOPPED, timer_oneshot_cancel ⟨9, 0, true⟩⟩ :=
  ⟨(error_recovery ⟨false, true, true, false⟩ ⟨9, 42, true⟩).1 rfl rfl,
   ((error_recovery ⟨false, false, false, false⟩ ⟨9, 0, true⟩).2 (by decide)).1 rfl⟩

/-- Claim C2: each of the eight non-Error transition functions commits
its nominal target (with its timer action) exactly when the current
state lies in its whitelisted predecessor set, and from any other state
commits `S_ERROR` with the error-recovery holdoff armed instead. -/
theorem advance_whitelists (m : Machine) :
    ((m.state = S_ERROR ∨ m.state = S_COLD_START ∨ m.state = S_READY ∨
        m.state = S_FWD_SPINDOWN ∨ m.state = S_REV_SPINDOWN) →
      advance_estopped m = ⟨S_ESTOPPED, timer_oneshot_cancel m.timer⟩) ∧
    (¬(m.state = S_ERROR ∨ m.state = S_COLD_START ∨ m.state = S_READY ∨
        m.state = S_FWD_SPINDOWN ∨ m.state = S_REV_SPINDOWN) →
      advance_estopped m = ⟨S_ERROR, timer_oneshot ERROR_RECOVER_TIME_MS m.timer⟩) ∧
    ((m.state = S_ESTOPPED ∨ m.state = S_FWD_SPINDOWN ∨ m.state = S_REV_SPINDOWN) →
      advance_ready m = ⟨S_READY, timer_oneshot_cancel m.timer⟩) ∧
    (¬(m.state = S_ESTOPPED ∨ m.state = S_FWD_SPINDOWN ∨ m.state = S_REV_SPINDOWN) →
      advance_ready m = ⟨S_ERROR, timer_oneshot ERROR_RECOVER_TIME_MS m.timer⟩) ∧
    ((m.state = S_READY ∨ m.state = S_FWD_SPINDOWN) →
      advance_fwd_start m = ⟨S_FWD_START, timer_oneshot SPINDLE_START_TIME_MS m.timer⟩) ∧
    (¬(m.state = S_READY ∨ m.state = S_FWD_SPINDOWN) →
      advance_fwd_start m = ⟨S_ERROR, timer_oneshot ERROR_RECOVER_TIME_MS m.timer⟩) ∧
    (m.state = S_FWD_START →
      advance_fwd m = ⟨S_FWD, timer_oneshot_cancel m.timer⟩) ∧
    (¬(m.state = S_FWD_START) →
      advance_fwd m = ⟨S_ERROR, timer_oneshot ERROR_RECOVER_TIME_MS m.timer⟩) ∧
    ((m.state = S_FWD_START ∨ m.state = S_FWD) →
      advance_fwd_spindown m = ⟨S_FWD_SPINDOWN, timer_oneshot SPINDLE_COAST_TIME_MS m.timer⟩) ∧
    (¬(m.state = S_FWD_START ∨ m.state = S_FWD) →
      advance_fwd_spindown m = ⟨S_ERROR, timer_oneshot ERROR_RECOVER_TIME_MS m.timer⟩) ∧
    ((m.state = S_READY ∨ m.state = S_REV_SPINDOWN) →
      advance_rev_start m = ⟨S_REV_START, timer_oneshot SPINDLE_START_TIME_MS m.timer⟩) ∧
    (¬(m.state = S_READY ∨ m.state = S_REV_SPINDOWN) →
      advance_rev_start m = ⟨S_ERROR, timer_oneshot ERROR_RECOVER_TIME_MS m.timer⟩) ∧
    (m.state = S_REV_START →
      advance_rev m = ⟨S_REV, timer_oneshot_cancel m.timer⟩) ∧
    (¬(m.state = S_REV_START) →
      advance_rev m = ⟨S_ERROR, timer_oneshot ERROR_RECOVER_TIME_MS m.timer⟩) ∧
    ((m.state = S_REV_START ∨ m.state = S_REV) →
      advance_rev_spindown m = ⟨S_REV_SPINDOWN, timer_oneshot SPINDLE_COAST_TIME_MS m.timer⟩) ∧
    (¬(m.state = S_REV_START ∨ m.state = S_REV) →
      advance_rev_spindown m = ⟨S_ERROR, timer_oneshot ERROR_RECOVER_TIME_MS m.timer⟩) := by
  refine ⟨fun h => ?_, fun h => ?_, fun h => ?_, fun h => ?_, fun h => ?_, fun h => ?_,
    fun h => ?_, fun h => ?_, fun h => ?_, fun h => ?_, fun h => ?_, fun h => ?_,
    fun h => ?_, fun h => ?_, fun h => ?_, fun h => ?_⟩ <;>
    simp only [advance_estopped, advance_ready, advance_fwd_start, advance_fwd,
      advance_fwd_spindown, advance_rev_start, advance_rev, advance_rev_spindown] <;>
    first
      | (rw [if_pos h])
      | (rw [if_neg h]; rfl)

/-- Witness for C2 at concrete inputs: from `S_READY`, `advance_estopped`
commits its target, while `advance_fwd` (whose only legal predecessor is
`S_FWD_START`) commits `S_ERROR` and arms the recovery holdoff. -/
theorem advance_whitelists_witness :
    advance_estopped ⟨S_READY, ⟨1, 2, false⟩⟩ =
      ⟨S_ESTOPPED, timer_oneshot_cancel ⟨1, 2, false⟩⟩ ∧
    advance_fwd ⟨S_READY, ⟨1, 2, false⟩⟩ =
      ⟨S_ERROR, timer_oneshot ERROR_RECOVER_TIME_MS ⟨1, 2, false⟩⟩ :=
  ⟨(advance_whitelists ⟨S_READY, ⟨1, 2, false⟩⟩).1 (by decide),
   (advance_whitelists ⟨S_READY, ⟨1, 2, false⟩⟩).2.2.2.2.2.2.2.1 (by decide)⟩

/-- Claim C3: when the output stage runs in state `S_ERROR` it writes
Lamp, Inhibit and StartPulse low but leaves Direction (and Status) at
their previous values; in every other of the ten states the output
stage overwrites Direction with a value determined by the state alone
(high exactly in the three reverse states). -/
theorem error_preserves_direction (ins : Inputs) (o : Outputs) :
    outputStage ins S_ERROR o =
      { o with light := false, inhibit := false, start := false } ∧
    (∀ s : Nat, s < 10 → s ≠ S_ERROR →
      (outputStage ins s o).direction =
        decide (s = S_REV_START ∨ s = S_REV ∨ s = S_REV_SPINDOWN)) := by
  constructor
  · simp [outputStage, out_light, out_inhibit, out_start, out_direction,
      S_ERROR, S_COLD_START, S_ESTOPPED, S_READY, S_FWD_START, S_FWD, S_FWD_SPINDOWN,
      S_REV_START, S_REV, S_REV_SPINDOWN]
  · intro s hs h0
    simp only [S_ERROR] at h0
    interval_cases s <;>
      first
        | (exact absurd rfl h0)
        | (simp [outputStage, out_light, out_inhibit, out_start, out_direction,
            S_ERROR, S_COLD_START, S_ESTOPPED, S_READY, S_FWD_START, S_FWD, S_FWD_SPINDOWN,
            S_REV_START, S_REV, S_REV_SPINDOWN])

/-- Witness for C3 at concrete inputs: in `S_FWD` the Direction output
is forced low, in `S_REV` it is forced high, regardless of its previous
value. -/
theorem error_preserves_direction_witness :
    (outputStage ⟨true, false, false, true⟩ S_FWD
      ⟨false, false, false, true, false⟩).direction =
      decide (S_FWD = S_REV_START ∨ S_FWD = S_REV ∨ S_FWD = S_REV_SPINDOWN) ∧
    (outputStage ⟨true, false, false, true⟩ S_REV
      ⟨false, false, false, false, false⟩).direction =
      decide (S_REV = S_REV_START ∨ S_REV = S_REV ∨ S_REV = S_REV_SPINDOWN) :=
  ⟨(error_preserves_direction ⟨true, false, false, true⟩
      ⟨false, false, false, true, false⟩).2 S_FWD (by decide) (by decide),
   (error_preserves_direction ⟨true, false, false, true⟩
      ⟨false, false, false, false, false⟩).2 S_REV (by decide) (by decide)⟩

/-- Claim C6: from `S_READY` with EstopClear and Forward asserted and
Reverse clear, one step commits `S_FWD_START` and arms the start-pulse
countdown; the output stage then drives Inhibit and StartPulse high;
while the countdown is still running the same inputs leave the
configuration unchanged; at its expiry the done flag is latched and the
next step commits `S_FWD`, cancelling the countdown, after which the
output stage drives Inhibit high and StartPulse low. -/
theorem fwd_start_sequence (t : TimerState) (l : Bool) (o : Outputs) :
    evalStep ⟨l, true, false, true⟩ ⟨S_READY, t⟩ =
      ⟨S_FWD_START, timer_oneshot SPINDLE_START_TIME_MS t⟩ ∧
    (outputStage ⟨l, true, false, true⟩ S_FWD_START o).inhibit = true ∧
    (outputStage ⟨l, true, false, true⟩ S_FWD_START o).start = true ∧
    (∀ k : Nat, k < SPINDLE_START_TIME_MS →
      evalStep ⟨l, true, false, true⟩
          ⟨S_FWD_START, isrN k (timer_oneshot SPINDLE_START_TIME_MS t)⟩ =
        ⟨S_FWD_START, isrN k (timer_oneshot SPINDLE_START_TIME_MS t)⟩) ∧
    timer_oneshot_done
      (isrN SPINDLE_START_TIME_MS (timer_oneshot SPINDLE_START_TIME_MS t)) = true ∧
    evalStep ⟨l, true, false, true⟩
        ⟨S_FWD_START, isrN SPINDLE_START_TIME_MS (timer_oneshot SPINDLE_START_TIME_MS t)⟩ =
      ⟨S_FWD, timer_oneshot_cancel
        (isrN SPINDLE_START_TIME_MS (timer_oneshot SPINDLE_START_TIME_MS t))⟩ ∧
    (outputStage ⟨l, true, false, true⟩ S_FWD o).inhibit = true ∧
    (outputStage ⟨l, true, false, true⟩ S_FWD o).start = false := by
  have harm : (timer_oneshot SPINDLE_START_TIME_MS t).timer_1k_oneshot =
      SPINDLE_START_TIME_MS := rfl
  have hdone : ∀ k, k < SPINDLE_START_TIME_MS →
      (isrN k (timer_oneshot SPINDLE_START_TIME_MS t)).timer_1k_done = false := by
    intro k hk
    have := isrN_countdown k (timer_oneshot SPINDLE_START_TIME_MS t) (by rw [harm]; exact hk)
    rw [this.2]
    rfl
  have hexp : (isrN SPINDLE_START_TIME_MS
      (timer_oneshot SPINDLE_START_TIME_MS t)).timer_1k_done = true :=
    isrN_done_after SPINDLE_START_TIME_MS (timer_oneshot SPINDLE_START_TIME_MS t)
      (by rw [harm]; decide) (by rw [harm])
  refine ⟨?_, ?_, ?_, ?_, hexp, ?_, ?_, ?_⟩
  · simp [evalStep, advance_fwd_start, S_ERROR, S_COLD_START, S_ESTOPPED, S_READY,
      S_FWD_START, S_FWD_SPINDOWN]
  · simp [outputStage, out_light, out_inhibit, out_start, out_direction,
      S_COLD_START, S_ESTOPPED, S_READY, S_FWD_START]
  · simp [outputStage, out_light, out_inhibit, out_start, out_direction,
      S_COLD_START, S_ESTOPPED, S_READY, S_FWD_START]
  · intro k hk
    simp [evalStep, timer_oneshot_done, hdone k hk, S_ERROR, S_COLD_START, S_ESTOPPED,
      S_READY, S_FWD_START]
  · simp [evalStep, timer_oneshot_done, hexp, advance_fwd, S_ERROR, S_COLD_START,
      S_ESTOPPED, S_READY, S_FWD_START]
  · simp [outputStage, out_light, out_inhibit, out_start, out_direction,
      S_COLD_START, S_ESTOPPED, S_READY, S_FWD_START, S_FWD]
  · simp [outputStage, out_light, out_inhibit, out_start, out_direction,
      S_COLD_START, S_ESTOPPED, S_READY, S_FWD_START, S_FWD]

/-- Witness for C6 at a concrete timer state: the hold branch applied at
tick 499 of the start-pulse countdown. -/
theorem fwd_start_sequence_witness :
    evalStep ⟨false, true, false, true⟩
        ⟨S_FWD_START, isrN 499 (timer_oneshot SPINDLE_START_TIME_MS ⟨0, 0, false⟩)⟩ =
      ⟨S_FWD_START, isrN 499 (timer_oneshot SPINDLE_START_TIME_MS ⟨0, 0, false⟩)⟩ :=
  (fwd_start_sequence ⟨0, 0, false⟩ false
    ⟨false, false, false, false, false⟩).2.2.2.1 499 (by decide)

/-- Claim C7: from `S_FWD`, with Reverse clear and Forward or EstopClear
deasserted, one step commits `S_FWD_SPINDOWN` and arms the coast
countdown; the output stage then drives Inhibit low; the coast countdown
latches its done flag at expiry; and a step from `S_FWD_SPINDOWN` with
Forward and Reverse clear and the countdown expired commits `S_READY`
when EstopClear is asserted and `S_ESTOPPED` otherwise, cancelling the
timer either way. -/
theorem fwd_spindown_sequence (t : TimerState) (ins : Inputs)
    (hrev : ins.in_rev = false) (hoff : ins.in_estopok = false ∨ ins.in_fwd = false) :
    evalStep ins ⟨S_FWD, t⟩ = ⟨S_FWD_SPINDOWN, timer_oneshot SPINDLE_COAST_TIME_MS t⟩ ∧
    (∀ o : Outputs, (outputStage ins S_FWD_SPINDOWN o).inhibit = false) ∧
    timer_oneshot_done
      (isrN SPINDLE_COAST_TIME_MS (timer_oneshot SPINDLE_COAST_TIME_MS t)) = true ∧
    (∀ (ins2 : Inputs) (t2 : TimerState), ins2.in_rev = false → ins2.in_fwd = false →
      timer_oneshot_done t2 = true →
      evalStep ins2 ⟨S_FWD_SPINDOWN, t2⟩ =
        ⟨if ins2.in_estopok then S_READY else S_ESTOPPED, timer_oneshot_cancel t2⟩) := by
  refine ⟨?_, ?_, ?_, ?_⟩
  · rcases ins with ⟨l, fwd, rev, eok⟩
    simp only [Inputs.in_rev] at hrev
    simp only [Inputs.in_estopok, Inputs.in_fwd] at hoff
    subst hrev
    rcases hoff with h | h
    · subst h
      cases fwd <;>
        simp [evalStep, advance_fwd_spindown, S_ERROR, S_COLD_START, S_ESTOPPED, S_READY,
          S_FWD_START, S_FWD]
    · subst h
      cases eok <;>
        simp [evalStep, advance_fwd_spindown, S_ERROR, S_COLD_START, S_ESTOPPED, S_READY,
          S_FWD_START, S_FWD]
  · intro o
    simp [outputStage, out_light, out_inhibit, out_start, out_direction,
      S_COLD_START, S_ESTOPPED, S_READY, S_FWD_START, S_FWD, S_FWD_SPINDOWN]
  · have harm : (timer_oneshot SPINDLE_COAST_TIME_MS t).timer_1k_oneshot =
        SPINDLE_COAST_TIME_MS := rfl
    exact isrN_done_after SPINDLE_COAST_TIME_MS (timer_oneshot SPINDLE_COAST_TIME_MS t)
      (by rw [harm]; decide) (by rw [harm])
  · intro ins2 t2 hrev2 hfwd2 hdone2
    rcases ins2 with ⟨l2, fwd2, rev2, eok2⟩
    simp only [Inputs.in_rev] at hrev2
    simp only [Inputs.in_fwd] at hfwd2
    simp only [timer_oneshot_done] at hdone2
    subst hrev2 hfwd2
    cases eok2 <;>
      simp [evalStep, advance_estopped, advance_ready, timer_oneshot_done, hdone2,
        S_ERROR, S_COLD_START, S_ESTOPPED, S_READY, S_FWD_START, S_FWD, S_FWD_SPINDOWN]

/-- Witness for C7 at concrete inputs: deasserting Forward in `S_FWD`
arms the coast countdown, and an expired-countdown step from
`S_FWD_SPINDOWN` with EstopClear asserted commits `S_READY`. -/
theorem fwd_spindown_sequence_witness :
    evalStep ⟨false, false, false, true⟩ ⟨S_FWD, ⟨3, 0, false⟩⟩ =
      ⟨S_FWD_SPINDOWN, timer_oneshot SPINDLE_COAST_TIME_MS ⟨3, 0, false⟩⟩ ∧
    evalStep ⟨false, false, false, true⟩ ⟨S_FWD_SPINDOWN, ⟨7, 0, true⟩⟩ =
      ⟨if (true : Bool) then S_READY else S_ESTOPPED, timer_oneshot_cancel ⟨7, 0, true⟩⟩ :=
  ⟨(fwd_spindown_sequence ⟨3, 0, false⟩ ⟨false, false, false, true⟩ rfl
      (Or.inr rfl)).1,
   (fwd_spindown_sequence ⟨3, 0, false⟩ ⟨false, false, false, true⟩ rfl
      (Or.inr rfl)).2.2.2 ⟨false, false, false, true⟩ ⟨7, 0, true⟩ rfl rfl rfl⟩

/-- Length of the symbol-interval list: two entries per symbol. -/
theorem buildSyms_length (b n : Nat) : (buildSyms b n).length = 2 * n := by
  induction n with
  | zero => rfl
  | succ n ih => simp [buildSyms, ih, Nat.mul_succ]

/-- Length of a rebuilt status sequence: the gap plus two entries per
symbol. -/
theorem buildTimes_length (b : Nat) : (buildTimes b).length = 1 + 2 * (b >>> 4) := by
  simp [buildTimes, buildSyms_length]
  omega

/-- Facts about the pattern table: it has 11 entries, and for each of
the ten states the decoded symbol count is between 1 and 4. -/
theorem stateblink_facts :
    stateblink.length = 11 ∧
    (∀ s : Nat, s < 10 → (stateblink.getD s 0) >>> 4 ≤ 4) ∧
    (∀ s : Nat, s < 10 → 0 < (stateblink.getD s 0) >>> 4) := by
  decide

/-- The status-pattern update preserves the encoder invariant and always
leaves a nonempty sequence behind. -/
theorem statusUpdate_inv (ostate s now : Nat) (ss : StatusState) (hs : s < 10)
    (h : StatusInv ss) :
    StatusInv (statusUpdate ostate s now ss) ∧ (statusUpdate ostate s now ss).status_len ≠ 0 := by
  have hcount := (stateblink_facts).2.1 s hs
  unfold statusUpdate
  split_ifs with h1 h2
  · refine ⟨⟨fun hlen => ?_, fun _ => ⟨rfl, ?_, ?_⟩⟩, ?_⟩
    · simp only [buildTimes_length] at hlen
      omega
    · simp only [buildTimes_length]
      omega
    · simp only [buildTimes_length]
      omega
    · simp only [buildTimes_length]
      omega
  · have hlen : ss.status_len ≠ 0 := by
      intro hz
      exact h1 (Or.inl hz)
    obtain ⟨hts, hph, hle⟩ := h.2 hlen
    refine ⟨⟨fun hz => absurd hz hlen, fun _ => ⟨hts, ?_, hle⟩⟩, hlen⟩
    exact Nat.mod_lt _ (by omega)
  · have hlen : ss.status_len ≠ 0 := by
      intro hz
      exact h1 (Or.inl hz)
    exact ⟨h, hlen⟩

/-- Every reachable configuration satisfies the controller invariant. -/
theorem inv_reachable (c : Config) (h : Reachable c) : Inv c := by
  induction h with
  | init =>
    refine ⟨by norm_num [initConfig, S_COLD_START], ⟨fun _ => ⟨rfl, rfl⟩, fun hz => ?_⟩⟩
    exact absurd rfl hz
  | tick hR ih => exact ⟨ih.1, ih.2⟩
  | loop hR ins ih =>
    refine ⟨evalStep_state_lt ins _ ih.1, ?_⟩
    exact (statusUpdate_inv _ _ _ _ (evalStep_state_lt ins _ ih.1) ih.2).1

/-- Claim C10: in every reachable configuration the committed state is
one of the ten enumerators (never `S_MAX` or beyond), so it indexes the
11-entry `stateblink` table in bounds; the decoded symbol count is at
most 4, so a rebuild writes at most 9 of the 32 `status_times` entries;
once a sequence exists the phase indexes the written entries; and after
any further loop iteration the sequence is nonempty with the phase
strictly below its length. -/
theorem status_encoder_bounds (c : Config) (h : Reachable c) :
    c.machine.state < 10 ∧
    c.machine.state < stateblink.length ∧
    (stateblink.getD c.machine.state 0) >>> 4 ≤ 4 ∧
    c.status.status_times.length ≤ 9 ∧
    (c.status.status_len ≠ 0 →
      c.status.status_times.length = c.status.status_len ∧
      c.status.status_phase < c.status.status_len) ∧
    (∀ ins : Inputs,
      (loopIter ins c).status.status_len ≠ 0 ∧
      (loopIter ins c).status.status_phase < (loopIter ins c).status.status_len) := by
  obtain ⟨h1, h2⟩ := inv_reachable c h
  have hsb := stateblink_facts
  refine ⟨h1, ?_, hsb.2.1 _ h1, ?_, fun hne => ⟨(h2.2 hne).1, (h2.2 hne).2.1⟩, ?_⟩
  · rw [hsb.1]
    omega
  · by_cases hlen : c.status.status_len = 0
    · rw [(h2.1 hlen).2]
      simp
    · obtain ⟨hts, _, hle⟩ := h2.2 hlen
      omega
  · intro ins
    have hinv := statusUpdate_inv c.machine.state (evalStep ins c.machine).state
      (timer_1k_val (evalStep ins c.machine).timer) c.status
      (evalStep_state_lt ins c.machine h1) h2
    exact ⟨hinv.2, ((hinv.1).2 hinv.2).2.1⟩

/-- Witness for C10: the invariant instantiated at the start
configuration and at its successor under one loop iteration. -/
theorem status_encoder_bounds_witness :
    initConfig.machine.state < 10 ∧
    (loopIter ⟨false, false, false, false⟩ initConfig).status.status_len ≠ 0 ∧
    (loopIter ⟨false, false, false, false⟩ initConfig).status.status_phase <
      (loopIter ⟨false, false, false, false⟩ initConfig).status.status_len :=
  ⟨(status_encoder_bounds initConfig Reachable.init).1,
   ((status_encoder_bounds initConfig Reachable.init).2.2.2.2.2
     ⟨false, false, false, false⟩).1,
   ((status_encoder_bounds initConfig Reachable.init).2.2.2.2.2
     ⟨false, false, false, false⟩).2⟩

/-- Claim C8 evaluation at the failing input: the single-symbol state
`S_ESTOPPED` (whose table comment documents the one-dot letter E)
rebuilds to a sequence whose lit interval is a DASH, not a DOT, because
the table entry is `(1 << 4) | 0x1` instead of `(1 << 4) | 0x0`; the
four-symbol dash-dot-dot-dash state `S_ERROR` rebuilds to the documented
9-element alternating sequence. -/
theorem stateblink_estopped_dash :
    buildTimes (stateblink.getD S_ESTOPPED 0) =
      [STATUS_TIME_GAP, STATUS_TIME_DASH, STATUS_TIME_INTERVAL] ∧
    STATUS_TIME_DASH ≠ STATUS_TIME_DOT ∧
    buildTimes (stateblink.getD S_ERROR 0) =
      [STATUS_TIME_GAP, STATUS_TIME_DASH, STATUS_TIME_INTERVAL, STATUS_TIME_DOT,
        STATUS_TIME_INTERVAL, STATUS_TIME_DOT, STATUS_TIME_INTERVAL, STATUS_TIME_DASH,
        STATUS_TIME_INTERVAL] := by
  decide

/-- Claim C9 counterexample: the status deadline check is a direct
equality test, so at a tick strictly past the stored deadline (interval
elapsed, exact tick missed) the phase does not advance: with deadline
1000 and current tick 1001 the encoder state is returned unchanged. -/
theorem status_deadline_missed_cex :
    (1000 : Nat) < 1001 ∧
    (statusUpdate S_READY S_READY 1001 ⟨[700, 300, 100], 3, 0, 1000⟩).status_phase = 0 ∧
    statusUpdate S_READY S_READY 1001 ⟨[700, 300, 100], 3, 0, 1000⟩ =
      ⟨[700, 300, 100], 3, 0, 1000⟩ := by
  decide

/-- Claim C9 (amended): the status encoder compares the tick counter to
the stored deadline by direct equality; since the deadline is stored
reduced modulo 2^32, the check fires exactly `d` interrupts after a
deadline `now + d` was stored, including across a counter wrap, and the
phase then advances; at any tick value not equal to the deadline
(elapsed or not) the encoder state is unchanged. -/
theorem status_deadline_equality (t : TimerState) (ss : StatusState) (s d : Nat)
    (hlt : t.timer_1k < 4294967296) (hlen : ss.status_len ≠ 0)
    (hdl : ss.status_timeout = (t.timer_1k + d) % 4294967296) :
    (timer_1k_val (isrN d t) = ss.status_timeout ∧
      (statusUpdate s s (timer_1k_val (isrN d t)) ss).status_phase =
        (ss.status_phase + 1) % ss.status_len) ∧
    (∀ now : Nat, now ≠ ss.status_timeout → statusUpdate s s now ss = ss) := by
  have hval : timer_1k_val (isrN d t) = ss.status_timeout := by
    rw [timer_1k_val, isrN_timer_1k d t hlt, hdl]
  refine ⟨⟨hval, ?_⟩, ?_⟩
  · unfold statusUpdate
    rw [if_neg (by simp [hlen]), if_pos hval]
  · intro now hnow
    unfold statusUpdate
    rw [if_neg (by simp [hlen]), if_neg hnow]

/-- Witness for C9 (amended), across a counter wrap: arming deadline
`(2^32 - 1) + 2 mod 2^32 = 1` fires exactly two interrupts later when
the counter has wrapped to 1, and the phase advances; a tick value of 5
does not fire the check. -/
theorem status_deadline_equality_witness :
    timer_1k_val (isrN 2 ⟨4294967295, 0, false⟩) =
      (⟨[700, 300, 100], 3, 0, 1⟩ : StatusState).status_timeout ∧
    (statusUpdate 3 3 (timer_1k_val (isrN 2 ⟨4294967295, 0, false⟩))
        ⟨[700, 300, 100], 3, 0, 1⟩).status_phase =
      ((⟨[700, 300, 100], 3, 0, 1⟩ : StatusState).status_phase + 1) %
        (⟨[700, 300, 100], 3, 0, 1⟩ : StatusState).status_len ∧
    statusUpdate 3 3 5 ⟨[700, 300, 100], 3, 0, 1⟩ = ⟨[700, 300, 100], 3, 0, 1⟩ :=
  ⟨((status_deadline_equality ⟨4294967295, 0, false⟩ ⟨[700, 300, 100], 3, 0, 1⟩ 3 2
      (by decide) (by decide) (by decide)).1).1,
   ((status_deadline_equality ⟨4294967295, 0, false⟩ ⟨[700, 300, 100], 3, 0, 1⟩ 3 2
      (by decide) (by decide) (by decide)).1).2,
   (status_deadline_equality ⟨4294967295, 0, false⟩ ⟨[700, 300, 100], 3, 0, 1⟩ 3 2
      (by decide) (by decide) (by decide)).2 5 (by decide)⟩

end MotorController
